import Mathlib

/-!
Verification of the mini_mc synchronization engine (src/mini_mc.py).

The development shallowly embeds the pure decision logic of the program:
the bounded diagnostic log, the local/remote checksum engines, the
smart-copy decision engine (both directions), move and recursive delete,
and the top-level directory diff.  Filesystem and SSH side effects are
modelled by explicit oracle functions (an `exec` function standing for
`ssh.exec_command`, per-path oracles for the sftp/os calls); the remote
side of the checksum engine is embedded down to the literal command
strings the program builds.  Directory trees are represented by an
inductive `FsTree`; the recursive copy walks it exactly as the source
walks `os.scandir` / `sftp.listdir_attr` listings.
-/

namespace MiniMc

/-! ## Configuration constants (mini_mc.py lines 21-30) -/

/-- `PARTIAL_MB = 5`: megabytes read by a partial compare. -/
def PARTIAL_MB : Nat := 5

/-- `LARGE_FILE_MB = 10`: threshold above which a file counts as large. -/
def LARGE_FILE_MB : Nat := 10

/-- `CMD_LOG_MAX = 5`: capacity of the diagnostic command log. -/
def CMD_LOG_MAX : Nat := 5

/-! ## Bounded diagnostic log (mini_mc.py lines 30-37)

`log_command` appends `cmd` to the log and, when the length exceeds
`CMD_LOG_MAX`, pops the oldest entry (`cmd_log.pop(0)`). The global
`cmd_log` list is threaded explicitly. -/

def log_command (log : List String) (cmd : String) : List String :=
  let l := log ++ [cmd]
  if CMD_LOG_MAX < l.length then l.drop 1 else l

/-! ## Path grammars

`os.path.join` (POSIX rules, the platform the program runs on) and the
manual remote concatenation `p.rstrip('/') + "/" + name` used for every
remote child path. -/

/-- Python `s.rstrip('/')`: drop trailing slash characters. -/
def rstripSlash (s : String) : String :=
  String.mk ((s.data.reverse.dropWhile (fun c => c = '/')).reverse)

/-- The remote-side join used throughout the source:
`"/" + name` when the parent is `"/"`, else `parent.rstrip('/') + "/" + name`. -/
def remote_join (p name : String) : String :=
  if p = "/" then "/" ++ name else rstripSlash p ++ "/" ++ name

/-- `b.startswith('/')`. -/
def startsWithSlash (s : String) : Bool :=
  match s.data with
  | c :: _ => c = '/'
  | [] => false

/-- `a.endswith('/')`. -/
def endsWithSlash (s : String) : Bool :=
  match s.data.getLast? with
  | some c => c = '/'
  | none => false

/-- POSIX `os.path.join(a, b)`: `b` if absolute, plain concatenation if `a`
is empty or ends in a slash, else a single separator in between. -/
def os_path_join (a b : String) : String :=
  if startsWithSlash b then b
  else if a = "" ∨ endsWithSlash a then a ++ b
  else a ++ "/" ++ b

/-! ## Local checksum engine (mini_mc.py lines 42-66)

`compute_local_checksum` feeds the file to a streaming digest in chunks of
`chunk_size` bytes and, in partial mode, stops once the cumulative bytes
read reach `partial_mb * 1024 * 1024`.  The hash algorithms themselves
(`hashlib.new(algo)`) are an abstract family `hashhex`; the digest of an
incremental feed equals the digest of the concatenation of the bytes fed,
so the model hashes the prefix the loop reads.  A missing file
(`os.path.isfile` false) or an `OSError` is the `none` file oracle. -/

/-- One pass of the read loop of `compute_local_checksum`, with an
explicit fuel argument for structural recursion: every iteration that
recurses consumes at least one byte, so fuel equal to the remaining byte
count is never exhausted. -/
def read_loop_fuel : Nat → Nat → Nat → Option Nat → Nat → Nat
  | 0, _, bytes_read, _, _ => bytes_read
  | fuel + 1, remaining, bytes_read, max_bytes, chunk_size =>
      let chunkLen := min chunk_size remaining
      if chunkLen = 0 then bytes_read
      else
        let br := bytes_read + chunkLen
        match max_bytes with
        | some m =>
            if m ≤ br then br
            else read_loop_fuel fuel (remaining - chunkLen) br max_bytes chunk_size
        | none => read_loop_fuel fuel (remaining - chunkLen) br max_bytes chunk_size

/-- Total number of bytes the read loop of `compute_local_checksum`
consumes: whole chunks of `chunk_size`, stopping at end of file or (in
partial mode, `max_bytes = some m`) as soon as the running total reaches
`m`.  `bytes_read` is the running total. -/
def read_loop (remaining : Nat) (bytes_read : Nat) (max_bytes : Option Nat)
    (chunk_size : Nat) : Nat :=
  read_loop_fuel remaining remaining bytes_read max_bytes chunk_size

/-- `compute_local_checksum(path, algo, full, partial_mb, chunk_size)`.
`file` is `some content` when `os.path.isfile(path)` holds and the read
succeeds, `none` otherwise (missing file or `OSError`); `hashhex algo bs`
stands for `hashlib.new(algo)` fed `bs` and asked for `hexdigest()`. -/
def compute_local_checksum (hashhex : String → List Nat → String)
    (file : Option (List Nat)) (algo : String) (full : Bool)
    (partial_mb : Nat) (chunk_size : Nat) : Option String :=
  match file with
  | none => none
  | some content =>
      let max_bytes : Option Nat := if full then none else some (partial_mb * 1024 * 1024)
      let n := read_loop content.length 0 max_bytes chunk_size
      some (hashhex algo (content.take n))

/-! ## Remote checksum engine (mini_mc.py lines 71-131)

Remote commands run through an `exec : String → String × Nat` oracle
standing for `ssh.exec_command`: the pair is (decoded stdout, exit
status).  The functions thread the diagnostic log exactly as the source
calls `log_command`. -/

/-- The `[ -f '<path>' ]` predicate command built by `remote_file_exists`. -/
def test_f_cmd (remote_path : String) : String :=
  "[ -f \x27" ++ remote_path ++ "\x27 ]"

/-- `remote_file_exists(ssh, remote_path)`: logs the test command, runs it,
true iff exit status 0.  Returns (result, updated log). -/
def remote_file_exists (exec : String → String × Nat) (log : List String)
    (remote_path : String) : Bool × List String :=
  let check_cmd := test_f_cmd remote_path
  let log := log_command log check_cmd
  let r := exec check_cmd
  (r.2 == 0, log)

/-- `command_map.get(algo, 'md5sum')`: the digest command name, with a
silent fallback to `md5sum` for any unknown algorithm. -/
def sumCmdFor (algo : String) : String :=
  if algo = "md5" then "md5sum"
  else if algo = "sha256" then "sha256sum"
  else if algo = "sha1" then "sha1sum"
  else "md5sum"

/-- The full-scope remote digest command `"{sum_cmd} '{remote_path}'"`. -/
def full_sum_cmd (algo remote_path : String) : String :=
  sumCmdFor algo ++ " \x27" ++ remote_path ++ "\x27"

/-- The partial-scope remote digest command
`"dd if='{remote_path}' bs=1M count={partial_mb} 2>/dev/null | {sum_cmd}"`. -/
def dd_sum_cmd (algo remote_path : String) (partial_mb : Nat) : String :=
  "dd if=\x27" ++ remote_path ++ "\x27 bs=1M count=" ++ toString partial_mb
    ++ " 2>/dev/null | " ++ sumCmdFor algo

/-- Python `s.strip()`: drop whitespace from both ends. -/
def pyStrip (s : String) : String :=
  String.mk (((s.data.dropWhile Char.isWhitespace).reverse.dropWhile
    Char.isWhitespace).reverse)

/-- Helper of `pySplitWs`: split a character list on whitespace runs,
`acc` holding the current token reversed. -/
def wsSplitAux : List Char → List Char → List String
  | [], acc => if acc.isEmpty then [] else [String.mk acc.reverse]
  | c :: cs, acc =>
      if c.isWhitespace then
        if acc.isEmpty then wsSplitAux cs [] else String.mk acc.reverse :: wsSplitAux cs []
      else wsSplitAux cs (c :: acc)

/-- Python `s.split()` (split on whitespace runs, no empty tokens). -/
def pySplitWs (s : String) : List String := wsSplitAux s.data []

/-- Helper of `pyToNat`: read a digit string left to right. -/
def digitsToNat : List Char → Nat → Option Nat
  | [], acc => some acc
  | c :: cs, acc =>
      if c.isDigit then digitsToNat cs (acc * 10 + (c.toNat - 48)) else none

/-- Python `out_data.isdigit()` guarding `int(out_data)`: the numeric value
when the string is non-empty and all digits, else `none`. -/
def pyToNat (s : String) : Option Nat :=
  match s.data with
  | [] => none
  | l => digitsToNat l 0

/-- `compute_remote_checksum(ssh, remote_path, algo, full, partial_mb)`:
existence check (which logs), command construction with the `md5sum`
fallback, log of the command, run, `None` on non-zero exit, else the
first whitespace-delimited token of the stripped output.  Returns
(digest option, updated log). -/
def compute_remote_checksum (exec : String → String × Nat) (log : List String)
    (remote_path : String) (algo : String) (full : Bool) (partial_mb : Nat) :
    Option String × List String :=
  let e := remote_file_exists exec log remote_path
  if !e.1 then (none, e.2)
  else
    let cmd := if full then full_sum_cmd algo remote_path
               else dd_sum_cmd algo remote_path partial_mb
    let log := log_command e.2 cmd
    let r := exec cmd
    let out_data := pyStrip r.1
    if r.2 != 0 then (none, log)
    else
      match pySplitWs out_data with
      | [] => (none, log)
      | p :: _ => (some p, log)

/-- `remote_file_size(ssh, remote_path)`: `stat -c %s`, logged; the size
when the exit status is 0 and the stripped output is purely numeric
(`out_data.isdigit()`, i.e. `String.toNat?` succeeds), else `None`. -/
def remote_file_size (exec : String → String × Nat) (log : List String)
    (remote_path : String) : Option Nat × List String :=
  let cmd := "stat -c %s \x27" ++ remote_path ++ "\x27"
  let log := log_command log cmd
  let r := exec cmd
  let out_data := pyStrip r.1
  if r.2 == 0 then (pyToNat out_data, log) else (none, log)

/-! Log-free value views of the remote queries, used to phrase hypotheses. -/

/-- The value computed by `remote_file_exists`, independent of the log. -/
def remote_exists_val (exec : String → String × Nat) (remote_path : String) : Bool :=
  (exec (test_f_cmd remote_path)).2 == 0

/-- The value computed by `compute_remote_checksum`, independent of the log. -/
def remote_checksum_val (exec : String → String × Nat) (remote_path : String)
    (algo : String) (full : Bool) (partial_mb : Nat) : Option String :=
  (compute_remote_checksum exec [] remote_path algo full partial_mb).1

/-- The value computed by `remote_file_size`, independent of the log. -/
def remote_size_val (exec : String → String × Nat) (remote_path : String) : Option Nat :=
  (remote_file_size exec [] remote_path).1

theorem remote_file_exists_fst (exec : String → String × Nat) (log : List String)
    (remote_path : String) :
    (remote_file_exists exec log remote_path).1 = remote_exists_val exec remote_path := rfl

theorem remote_file_size_fst (exec : String → String × Nat) (log : List String)
    (remote_path : String) :
    (remote_file_size exec log remote_path).1 = remote_size_val exec remote_path := by
  simp only [remote_size_val, remote_file_size]
  split <;> rfl

theorem compute_remote_checksum_fst (exec : String → String × Nat) (log : List String)
    (remote_path : String) (algo : String) (full : Bool) (partial_mb : Nat) :
    (compute_remote_checksum exec log remote_path algo full partial_mb).1
      = remote_checksum_val exec remote_path algo full partial_mb := by
  simp only [remote_checksum_val, compute_remote_checksum, remote_file_exists]
  split
  · rfl
  · split <;> split <;> first | rfl | (split <;> rfl)

/-! ## Directory trees and effect state

`FsTree` is the shape of the subtree at a source path: the recursive copy
of the program walks exactly this structure (`os.path.isdir` / the
`st_mode` directory bit choose the branch; `os.scandir` /
`sftp.listdir_attr` yield the child entries in listing order).  The
observable effects of a run are collected in a `CopyState`: the diagnostic
log and, per backend call, the list of calls made in order. -/

inductive FsTree where
  | file : FsTree
  | dir (entries : List (String × FsTree)) : FsTree
deriving Repr

/-- `isDirectory t`: which branch of the copy the source takes for this
node (`os.path.isdir` on the local side, the `st_mode` bit remotely). -/
def FsTree.isDirectory : FsTree → Bool
  | .file => false
  | .dir _ => true

/-- The observable effects of a run: the diagnostic log plus, in call
order, every `sftp.put`, `sftp.get`, `mkdir`, local removal (path, was a
recursive `shutil.rmtree`), remote `sftp.remove` and remote `sftp.rmdir`. -/
structure CopyState where
  log : List String
  puts : List (String × String)
  gets : List (String × String)
  mkdirs : List String
  rm_local : List (String × Bool)
  rm_remote : List String
  rmdirs : List String
deriving Repr, DecidableEq

/-- The state at program start: empty log, no calls made. -/
def initState : CopyState :=
  { log := [], puts := [], gets := [], mkdirs := [], rm_local := [],
    rm_remote := [], rmdirs := [] }

/-- Append one line to the state's diagnostic log via `log_command`. -/
def pushLog (st : CopyState) (cmd : String) : CopyState :=
  { st with log := log_command st.log cmd }

/-- Python truthiness of an optional checksum string: `None` and the empty
string are falsy (`if csum_loc_part and csum_rem_part and ...`). -/
def truthyOpt : Option String → Bool
  | none => false
  | some s => s != ""

/-! ## Smart copy, local to remote (mini_mc.py lines 236-290)

The backends are oracles: `exec` is `ssh.exec_command`; `getsize` is
`os.path.getsize`; `locsum path full` is `compute_local_checksum(path,
full=full)` with the default `md5` algorithm on the current local disk;
`put_err a b` is the exception message `sftp.put(a, b)` raises, `none`
when the transfer succeeds; `scandir_err p` is the `OSError` message
`os.scandir(p)` raises — that one is *not* caught anywhere in the copy,
so it aborts the walk, which the copy functions surface as a
`CopyState × Option String` result (final state, uncaught exception). -/

structure L2REnv where
  exec : String → String × Nat
  getsize : String → Nat
  locsum : String → Bool → Option String
  put_err : String → String → Option String
  scandir_err : String → Option String

/-- The final `# Datei kopieren` block: log `PUT a -> b`, call
`sftp.put` (recorded in `puts`), and on an exception log `Fehler: e`. -/
def l2r_put (env : L2REnv) (local_path remote_path : String) (st : CopyState) : CopyState :=
  let cmd := "PUT " ++ local_path ++ " -> " ++ remote_path
  let st := pushLog st cmd
  let st := { st with puts := st.puts ++ [(local_path, remote_path)] }
  match env.put_err local_path remote_path with
  | none => st
  | some e => pushLog st ("Fehler: " ++ e)

/-- The `SKIP identical: {src} -> {dst}` diagnostic line. -/
def skip_line (src dst : String) : String :=
  "SKIP identical: " ++ src ++ " -> " ++ dst

/-- The large-file comparison of `smart_copy_local_to_remote` (lines
268-279): partial checksums of both sides; when both are truthy and equal,
full checksums of both sides; when those compare equal (a bare `==` on the
two results, with no `None` guard) log the skip line and stop, otherwise
fall through to the transfer. -/
def l2r_large (env : L2REnv) (local_path remote_path : String) (st : CopyState) : CopyState :=
  let csum_loc_part := env.locsum local_path false
  let rp := compute_remote_checksum env.exec st.log remote_path "md5" false PARTIAL_MB
  let csum_rem_part := rp.1
  let st := { st with log := rp.2 }
  if truthyOpt csum_loc_part && truthyOpt csum_rem_part
      && (csum_loc_part == csum_rem_part) then
    let csum_loc_full := env.locsum local_path true
    let rf := compute_remote_checksum env.exec st.log remote_path "md5" true PARTIAL_MB
    let csum_rem_full := rf.1
    let st := { st with log := rf.2 }
    if csum_loc_full == csum_rem_full then
      pushLog st (skip_line local_path remote_path)
    else l2r_put env local_path remote_path st
  else l2r_put env local_path remote_path st

/-- The file branch of `smart_copy_local_to_remote` (lines 262-290):
`os.path.getsize`, the remote existence check (which logs its command),
and either the large-file comparison or the unconditional transfer. -/
def l2r_file (env : L2REnv) (local_path remote_path : String) (st : CopyState) : CopyState :=
  let size_local := env.getsize local_path
  let e := remote_file_exists env.exec st.log remote_path
  let st := { st with log := e.2 }
  if e.1 && (LARGE_FILE_MB * 1024 * 1024 < size_local) then
    l2r_large env local_path remote_path st
  else l2r_put env local_path remote_path st

mutual

/-- `smart_copy_local_to_remote(sftp, ssh, local_path, remote_path)`.
Directory: `sftp.mkdir` (recorded; an `IOError` is swallowed), then
`os.scandir` — an `OSError` there is uncaught and propagates — then the
children in listing order.  File: `l2r_file`.  The second component is
the uncaught exception, `none` when the call returns normally. -/
def smart_copy_local_to_remote (env : L2REnv) (t : FsTree)
    (local_path remote_path : String) (st : CopyState) : CopyState × Option String :=
  match t with
  | .dir entries =>
      let st := { st with mkdirs := st.mkdirs ++ [remote_path] }
      match env.scandir_err local_path with
      | some e => (st, some e)
      | none => l2r_children env entries local_path remote_path st
  | .file => (l2r_file env local_path remote_path st, none)

/-- The `for entry in os.scandir(local_path)` loop of
`smart_copy_local_to_remote` (lines 252-261): child paths are
`os.path.join(local_path, entry.name)` and the manual remote
concatenation on the destination; an exception from a child aborts the
loop (nothing catches it). -/
def l2r_children (env : L2REnv) (entries : List (String × FsTree))
    (local_path remote_path : String) (st : CopyState) : CopyState × Option String :=
  match entries with
  | [] => (st, none)
  | (name, child) :: rest =>
      let src_child := os_path_join local_path name
      let dst_child := remote_join remote_path name
      let r := smart_copy_local_to_remote env child src_child dst_child st
      match r.2 with
      | some e => (r.1, some e)
      | none => l2r_children env rest local_path remote_path r.1

end

/-! ## Smart copy, remote to local (mini_mc.py lines 295-349)

Oracles: `exec` as before; `stat_err p` — `sftp.stat(p)` raises `IOError`
(the function then returns at once); `local_exists` is `os.path.exists`;
`locsum` as in `L2REnv`; `get_err a b` is the exception message of
`sftp.get(a, b)`; `listdir_err p` — `sftp.listdir_attr(p)` raises
`IOError`, which the source catches with `pass`, silently skipping the
children.  Every failure is caught here, so the result is a plain
`CopyState`. -/

structure R2LEnv where
  exec : String → String × Nat
  stat_err : String → Bool
  local_exists : String → Bool
  locsum : String → Bool → Option String
  get_err : String → String → Option String
  listdir_err : String → Bool

/-- The final transfer block of `smart_copy_remote_to_local`: log
`GET a -> b`, call `sftp.get` (recorded in `gets`), and on an exception
log `Fehler: e`. -/
def r2l_get (env : R2LEnv) (remote_path local_path : String) (st : CopyState) : CopyState :=
  let cmd := "GET " ++ remote_path ++ " -> " ++ local_path
  let st := pushLog st cmd
  let st := { st with gets := st.gets ++ [(remote_path, local_path)] }
  match env.get_err remote_path local_path with
  | none => st
  | some e => pushLog st ("Fehler: " ++ e)

/-- The large-file comparison of `smart_copy_remote_to_local` (lines
332-342), mirroring `l2r_large` with the remote side computed first. -/
def r2l_large (env : R2LEnv) (remote_path local_path : String) (st : CopyState) : CopyState :=
  let rp := compute_remote_checksum env.exec st.log remote_path "md5" false PARTIAL_MB
  let csum_rem_part := rp.1
  let st := { st with log := rp.2 }
  let csum_loc_part := env.locsum local_path false
  if truthyOpt csum_rem_part && truthyOpt csum_loc_part
      && (csum_rem_part == csum_loc_part) then
    let rf := compute_remote_checksum env.exec st.log remote_path "md5" true PARTIAL_MB
    let csum_rem_full := rf.1
    let st := { st with log := rf.2 }
    let csum_loc_full := env.locsum local_path true
    if csum_rem_full == csum_loc_full then
      pushLog st (skip_line remote_path local_path)
    else r2l_get env remote_path local_path st
  else r2l_get env remote_path local_path st

/-- The file branch of `smart_copy_remote_to_local` (lines 327-349): when
the local destination exists, query the remote size (logged); the
comparison runs only under `if size_remote and size_remote > threshold`
(Python truthiness: `None` and `0` fail the guard), else transfer. -/
def r2l_file (env : R2LEnv) (remote_path local_path : String) (st : CopyState) : CopyState :=
  if env.local_exists local_path then
    let sz := remote_file_size env.exec st.log remote_path
    let st := { st with log := sz.2 }
    match sz.1 with
    | some n =>
        if LARGE_FILE_MB * 1024 * 1024 < n then r2l_large env remote_path local_path st
        else r2l_get env remote_path local_path st
    | none => r2l_get env remote_path local_path st
  else r2l_get env remote_path local_path st

mutual

/-- `smart_copy_remote_to_local(sftp, ssh, remote_path, local_path)`.
A failing `sftp.stat` returns at once; a directory is created locally
when missing (`os.mkdir`, errors swallowed) and its children walked
unless `sftp.listdir_attr` fails (caught, children silently skipped);
a file goes through `r2l_file`. -/
def smart_copy_remote_to_local (env : R2LEnv) (t : FsTree)
    (remote_path local_path : String) (st : CopyState) : CopyState :=
  if env.stat_err remote_path then st
  else
    match t with
    | .dir entries =>
        let st := if env.local_exists local_path then st
                  else { st with mkdirs := st.mkdirs ++ [local_path] }
        if env.listdir_err remote_path then st
        else r2l_children env entries remote_path local_path st
    | .file => r2l_file env remote_path local_path st

/-- The `for e in entries` loop of `smart_copy_remote_to_local` (lines
318-323): the remote child by manual concatenation, the local child by
`os.path.join`. -/
def r2l_children (env : R2LEnv) (entries : List (String × FsTree))
    (remote_path local_path : String) (st : CopyState) : CopyState :=
  match entries with
  | [] => st
  | (name, child) :: rest =>
      let remote_child := remote_join remote_path name
      let local_child := os_path_join local_path name
      r2l_children env rest remote_path local_path
        (smart_copy_remote_to_local env child remote_child local_child st)

end

/-! ## Move (mini_mc.py lines 361-392) and recursive remote delete (lines 394-407) -/

/-- `move_file_local_to_remote`: the copy runs first; only when it
returns (no uncaught exception) does the removal block run — a file by
`os.remove`, a directory by `shutil.rmtree` (a recursive subtree delete,
recorded with flag `true`), each followed by its `RM LOCAL` log line; a
removal exception (`rm_err`) is caught and logged. -/
def move_file_local_to_remote (env : L2REnv) (rm_err : String → Option String)
    (t : FsTree) (local_path remote_path : String) (st : CopyState) :
    CopyState × Option String :=
  let r := smart_copy_local_to_remote env t local_path remote_path st
  match r.2 with
  | some e => (r.1, some e)
  | none =>
      match t with
      | .file =>
          match rm_err local_path with
          | some e => (pushLog r.1 ("Fehler bei rm local: " ++ e), none)
          | none =>
              (pushLog { r.1 with rm_local := r.1.rm_local ++ [(local_path, false)] }
                ("RM LOCAL " ++ local_path), none)
      | .dir _ =>
          match rm_err local_path with
          | some e => (pushLog r.1 ("Fehler bei rm local: " ++ e), none)
          | none =>
              (pushLog { r.1 with rm_local := r.1.rm_local ++ [(local_path, true)] }
                ("RM LOCAL DIR " ++ local_path), none)

/-- Oracles of `remove_remote_dir_recursive`: `listdir_err p` —
`sftp.listdir_attr(p)` raises; `remove_err p` — `sftp.remove(p)` raises
with this message; `rmdir_err p` — `sftp.rmdir(p)` raises. -/
structure RmEnv where
  listdir_err : String → Bool
  remove_err : String → Option String
  rmdir_err : String → Bool

mutual

/-- `remove_remote_dir_recursive(sftp, path)`: one `try` wraps the whole
listing loop and the final `rmdir`, with `except: pass`.  A recursive
call on a subdirectory child never raises (its own `except` swallows
everything), but an `sftp.remove` failure on a file child aborts the
remaining siblings and the `rmdir` of this directory.  Called on a
non-directory, `listdir_attr` raises and the call is a no-op. -/
def remove_remote_dir_recursive (env : RmEnv) (t : FsTree) (path : String)
    (st : CopyState) : CopyState :=
  match t with
  | .file => st
  | .dir entries =>
      if env.listdir_err path then st
      else
        let r := rm_children env entries path st
        if r.2 then r.1
        else if env.rmdir_err path then r.1
        else { r.1 with rmdirs := r.1.rmdirs ++ [path] }

/-- The `for item in sftp.listdir_attr(path)` loop of
`remove_remote_dir_recursive`: the second component is true when an
`sftp.remove` exception aborted the loop. -/
def rm_children (env : RmEnv) (entries : List (String × FsTree)) (path : String)
    (st : CopyState) : CopyState × Bool :=
  match entries with
  | [] => (st, false)
  | (name, child) :: rest =>
      let fullp := remote_join path name
      match child with
      | .dir _ =>
          rm_children env rest path (remove_remote_dir_recursive env child fullp st)
      | .file =>
          match env.remove_err fullp with
          | some _ => (st, true)
          | none =>
              rm_children env rest path { st with rm_remote := st.rm_remote ++ [fullp] }

end

/-- `move_file_remote_to_local`: the copy runs first (it cannot raise:
every failure inside it is caught), then one `try` block stats the
source — `stat_err2 p` is its exception message — and removes it: a
directory through `remove_remote_dir_recursive` (whose failures never
propagate) followed by the `RM REMOTE DIR` line, a file through
`sftp.remove` (`remove_err2 p` its exception message) followed by
`RM REMOTE`; any exception in the block is caught and logged. -/
def move_file_remote_to_local (env : R2LEnv) (rmenv : RmEnv)
    (stat_err2 : String → Option String) (remove_err2 : String → Option String)
    (t : FsTree) (remote_path local_path : String) (st : CopyState) : CopyState :=
  let st := smart_copy_remote_to_local env t remote_path local_path st
  match stat_err2 remote_path with
  | some e => pushLog st ("Fehler bei rm remote: " ++ e)
  | none =>
      match t with
      | .dir _ =>
          pushLog (remove_remote_dir_recursive rmenv t remote_path st)
            ("RM REMOTE DIR " ++ remote_path)
      | .file =>
          match remove_err2 remote_path with
          | some e => pushLog st ("Fehler bei rm remote: " ++ e)
          | none =>
              pushLog { st with rm_remote := st.rm_remote ++ [remote_path] }
                ("RM REMOTE " ++ remote_path)

/-! ## Directory diff (mini_mc.py lines 443-477)

`compare_directories` receives the two top-level listings (name,
is-directory pairs, as produced by `list_local_dir` / `list_remote_dir`)
and checksum oracles: `locsum p` stands for
`compute_local_checksum(p, algo, full)` and `remsum p` for
`compute_remote_checksum(ssh, p, algo, full)` at the chosen algorithm and
scope. -/

/-- The per-name comparison in the `for fname in common` loop: names with
an unavailable checksum on either side go to `different`; otherwise digest
equality decides. -/
def checksums_match (locsum remsum : String → Option String)
    (local_path remote_path fname : String) : Bool :=
  match locsum (os_path_join local_path fname),
        remsum (remote_join remote_path fname) with
  | some a, some b => a == b
  | _, _ => false

/-- `compare_directories(local_path, remote_path, ...)`: keep non-directory
entries other than `".."` from both listings, split into
(only_local, only_remote, different, same). -/
def compare_directories (local_path remote_path : String)
    (local_entries remote_entries : List (String × Bool))
    (locsum remsum : String → Option String) :
    Finset String × Finset String × Finset String × Finset String :=
  let local_files := (local_entries.filter (fun e => !e.2 && e.1 != "..")).map Prod.fst
  let remote_files := (remote_entries.filter (fun e => !e.2 && e.1 != "..")).map Prod.fst
  let set_local := local_files.toFinset
  let set_remote := remote_files.toFinset
  let common := set_local ∩ set_remote
  let only_local := set_local \ common
  let only_remote := set_remote \ common
  let different := common.filter
    (fun f => ¬ checksums_match locsum remsum local_path remote_path f = true)
  let same := common.filter
    (fun f => checksums_match locsum remsum local_path remote_path f = true)
  (only_local, only_remote, different, same)

/-! ## Properties of the diagnostic log -/

theorem log_command_length_le (log : List String) (c : String) (h : log.length ≤ 5) :
    (log_command log c).length ≤ 5 := by
  simp only [log_command, CMD_LOG_MAX]
  split
  · simp only [List.length_drop, List.length_append, List.length_singleton]
    omega
  · rename_i hlt
    simp only [not_lt, List.length_append, List.length_singleton] at hlt
    simp only [List.length_append, List.length_singleton]
    omega

theorem foldl_log_command_length_le (cmds : List String) :
    ∀ log0 : List String, log0.length ≤ 5 →
      (cmds.foldl log_command log0).length ≤ 5 := by
  induction cmds with
  | nil => intro log0 h; simpa using h
  | cons c cs ih =>
      intro log0 h
      rw [List.foldl_cons]
      exact ih _ (log_command_length_le log0 c h)

theorem foldl_log_command (cmds : List String) :
    ∀ log0 : List String, log0.length ≤ 5 →
      cmds.foldl log_command log0
        = (log0 ++ cmds).drop ((log0 ++ cmds).length - 5) := by
  induction cmds with
  | nil =>
      intro log0 h
      simp [Nat.sub_eq_zero_of_le h]
  | cons c cs ih =>
      intro log0 h
      rw [List.foldl_cons, ih _ (log_command_length_le log0 c h)]
      have hsplit : log0 ++ c :: cs = (log0 ++ [c]) ++ cs := by
        rw [List.append_assoc, List.singleton_append]
      by_cases hlen : CMD_LOG_MAX < (log0 ++ [c]).length
      · have hcmd : log_command log0 c = (log0 ++ [c]).drop 1 := by
          simp only [log_command]
          rw [if_pos hlen]
        rw [hcmd, hsplit,
          ← List.drop_append_of_le_length (show (1 : Nat) ≤ (log0 ++ [c]).length by simp),
          List.drop_drop]
        congr 1
        have h6 : log0.length = 5 := by
          simp only [CMD_LOG_MAX, List.length_append, List.length_singleton] at hlen
          omega
        simp only [List.length_append, List.length_drop, List.length_singleton, h6]
        omega
      · have hcmd : log_command log0 c = log0 ++ [c] := by
          simp only [log_command]
          rw [if_neg hlen]
        rw [hcmd, hsplit]

/-- Claim C8: the diagnostic log is a fixed-capacity FIFO of capacity 5:
after a sequence of more than 5 `log_command` appends from the empty
start log, the log holds exactly the 5 most recently appended entries in
insertion order, and after any prefix of the appends its length is at
most 5. -/
theorem log_is_bounded_fifo (cmds : List String) (h : 5 < cmds.length) :
    cmds.foldl log_command [] = cmds.drop (cmds.length - 5)
    ∧ ∀ n : Nat, ((cmds.take n).foldl log_command []).length ≤ 5 := by
  constructor
  · have := foldl_log_command cmds [] (by simp)
    simpa using this
  · intro n
    exact foldl_log_command_length_le (cmds.take n) [] (by simp)

/-- Witness for C8: six appends leave exactly the last five entries. -/
theorem log_is_bounded_fifo_witness :
    ["a", "b", "c", "d", "e", "f"].foldl log_command [] = ["b", "c", "d", "e", "f"] := by
  have h := (log_is_bounded_fifo ["a", "b", "c", "d", "e", "f"] (by decide)).1
  exact h.trans (by decide)

/-! ## Properties of the directory diff -/

/-- Claim C4: for any two listings, `compare_directories` classifies every
filename that appears as a non-directory, non-".." entry of either
listing into exactly one of its four result sets: the four sets are
pairwise disjoint and their union is the set of all such filenames from
both listings. -/
theorem compare_directories_partition
    (local_path remote_path : String)
    (local_entries remote_entries : List (String × Bool))
    (locsum remsum : String → Option String) :
    (Disjoint (compare_directories local_path remote_path local_entries remote_entries locsum remsum).1
        (compare_directories local_path remote_path local_entries remote_entries locsum remsum).2.1
      ∧ Disjoint (compare_directories local_path remote_path local_entries remote_entries locsum remsum).1
        (compare_directories local_path remote_path local_entries remote_entries locsum remsum).2.2.1
      ∧ Disjoint (compare_directories local_path remote_path local_entries remote_entries locsum remsum).1
        (compare_directories local_path remote_path local_entries remote_entries locsum remsum).2.2.2
      ∧ Disjoint (compare_directories local_path remote_path local_entries remote_entries locsum remsum).2.1
        (compare_directories local_path remote_path local_entries remote_entries locsum remsum).2.2.1
      ∧ Disjoint (compare_directories local_path remote_path local_entries remote_entries locsum remsum).2.1
        (compare_directories local_path remote_path local_entries remote_entries locsum remsum).2.2.2
      ∧ Disjoint (compare_directories local_path remote_path local_entries remote_entries locsum remsum).2.2.1
        (compare_directories local_path remote_path local_entries remote_entries locsum remsum).2.2.2)
    ∧ (compare_directories local_path remote_path local_entries remote_entries locsum remsum).1
        ∪ (compare_directories local_path remote_path local_entries remote_entries locsum remsum).2.1
        ∪ (compare_directories local_path remote_path local_entries remote_entries locsum remsum).2.2.1
        ∪ (compare_directories local_path remote_path local_entries remote_entries locsum remsum).2.2.2
      = ((local_entries.filter (fun e => !e.2 && e.1 != "..")).map Prod.fst).toFinset
        ∪ ((remote_entries.filter (fun e => !e.2 && e.1 != "..")).map Prod.fst).toFinset := by
  simp only [compare_directories]
  refine ⟨⟨?_, ?_, ?_, ?_, ?_, ?_⟩, ?_⟩
  case _ =>
    rw [Finset.disjoint_left]
    intro a ha hb
    simp only [Finset.mem_sdiff, Finset.mem_inter] at ha hb
    tauto
  case _ =>
    rw [Finset.disjoint_left]
    intro a ha hb
    simp only [Finset.mem_sdiff, Finset.mem_inter, Finset.mem_filter] at ha hb
    tauto
  case _ =>
    rw [Finset.disjoint_left]
    intro a ha hb
    simp only [Finset.mem_sdiff, Finset.mem_inter, Finset.mem_filter] at ha hb
    tauto
  case _ =>
    rw [Finset.disjoint_left]
    intro a ha hb
    simp only [Finset.mem_sdiff, Finset.mem_inter, Finset.mem_filter] at ha hb
    tauto
  case _ =>
    rw [Finset.disjoint_left]
    intro a ha hb
    simp only [Finset.mem_sdiff, Finset.mem_inter, Finset.mem_filter] at ha hb
    tauto
  case _ =>
    rw [Finset.disjoint_left]
    intro a ha hb
    simp only [Finset.mem_filter] at ha hb
    tauto
  case _ =>
    ext a
    simp only [Finset.mem_union, Finset.mem_sdiff, Finset.mem_inter, Finset.mem_filter]
    by_cases hm : checksums_match locsum remsum local_path remote_path a = true <;> tauto

/-! ## Execution lemmas for the copy decision engine -/

theorem getLast?_log_command (log : List String) (c : String) :
    (log_command log c).getLast? = some c := by
  simp only [log_command]
  split
  · rename_i hlen
    have hlog : 1 ≤ log.length := by
      simp only [CMD_LOG_MAX, List.length_append, List.length_singleton] at hlen
      omega
    rw [List.drop_append_of_le_length hlog, List.getLast?_concat]
  · exact List.getLast?_concat _

theorem pushLog_puts (st : CopyState) (c : String) : (pushLog st c).puts = st.puts := rfl

theorem pushLog_gets (st : CopyState) (c : String) : (pushLog st c).gets = st.gets := rfl

theorem l2r_put_puts (env : L2REnv) (lp rp : String) (st : CopyState) :
    (l2r_put env lp rp st).puts = st.puts ++ [(lp, rp)] := by
  cases henv : env.put_err lp rp <;> simp [l2r_put, henv, pushLog]

theorem r2l_get_gets (env : R2LEnv) (rp lp : String) (st : CopyState) :
    (r2l_get env rp lp st).gets = st.gets ++ [(rp, lp)] := by
  cases henv : env.get_err rp lp <;> simp [r2l_get, henv, pushLog]

/-- When the destination exists and the source is large, the file branch
enters the two-phase comparison. -/
theorem l2r_file_comparison (env : L2REnv) (lp rp : String) (st : CopyState)
    (hex : remote_exists_val env.exec rp = true)
    (hsz : LARGE_FILE_MB * 1024 * 1024 < env.getsize lp) :
    smart_copy_local_to_remote env .file lp rp st
      = (l2r_large env lp rp (pushLog st (test_f_cmd rp)), none) := by
  simp only [smart_copy_local_to_remote, l2r_file, remote_file_exists, pushLog]
  simp only [remote_exists_val] at hex
  simp [hex, hsz]

/-- When the destination is missing or the source is not large, the file
branch transfers unconditionally. -/
theorem l2r_file_direct (env : L2REnv) (lp rp : String) (st : CopyState)
    (h : remote_exists_val env.exec rp = false
      ∨ env.getsize lp ≤ LARGE_FILE_MB * 1024 * 1024) :
    smart_copy_local_to_remote env .file lp rp st
      = (l2r_put env lp rp (pushLog st (test_f_cmd rp)), none) := by
  simp only [smart_copy_local_to_remote, l2r_file, remote_file_exists, pushLog]
  rcases h with h | h
  · simp only [remote_exists_val] at h
    simp [h]
  · have hlt : ¬ LARGE_FILE_MB * 1024 * 1024 < env.getsize lp := by omega
    simp [hlt]

/-- The comparison skips exactly when the partial guard passes and the two
full results compare equal as optional values. -/
theorem l2r_large_skip (env : L2REnv) (lp rp : String) (st : CopyState)
    (hp : (truthyOpt (env.locsum lp false)
        && truthyOpt (remote_checksum_val env.exec rp "md5" false PARTIAL_MB)
        && (env.locsum lp false == remote_checksum_val env.exec rp "md5" false PARTIAL_MB))
      = true)
    (hf : env.locsum lp true = remote_checksum_val env.exec rp "md5" true PARTIAL_MB) :
    (l2r_large env lp rp st).puts = st.puts
    ∧ (l2r_large env lp rp st).log.getLast? = some (skip_line lp rp) := by
  simp only [l2r_large, compute_remote_checksum_fst]
  rw [hf] at *
  simp [hp, pushLog, getLast?_log_command]

/-- The comparison transfers when the partial guard fails or the full
results differ. -/
theorem l2r_large_put (env : L2REnv) (lp rp : String) (st : CopyState)
    (h : (truthyOpt (env.locsum lp false)
        && truthyOpt (remote_checksum_val env.exec rp "md5" false PARTIAL_MB)
        && (env.locsum lp false == remote_checksum_val env.exec rp "md5" false PARTIAL_MB))
      = false
      ∨ env.locsum lp true ≠ remote_checksum_val env.exec rp "md5" true PARTIAL_MB) :
    (l2r_large env lp rp st).puts = st.puts ++ [(lp, rp)] := by
  simp only [l2r_large, compute_remote_checksum_fst]
  rcases h with h | h
  · simp [h, l2r_put_puts]
  · have hne : (env.locsum lp true
        == remote_checksum_val env.exec rp "md5" true PARTIAL_MB) = false := by
      simpa using h
    split
    · simp [hne, l2r_put_puts]
    · simp [l2r_put_puts]

/-- Remote-to-local file branch: existing destination and large known
size enter the comparison. -/
theorem r2l_file_comparison (env : R2LEnv) (rp lp : String) (st : CopyState) (n : Nat)
    (hstat : env.stat_err rp = false)
    (hex : env.local_exists lp = true)
    (hn : remote_size_val env.exec rp = some n)
    (hsz : LARGE_FILE_MB * 1024 * 1024 < n) :
    smart_copy_remote_to_local env .file rp lp st
      = r2l_large env rp lp
          { st with log := (remote_file_size env.exec st.log rp).2 } := by
  simp only [smart_copy_remote_to_local, r2l_file, hstat, Bool.false_eq_true,
    if_false, hex, if_true]
  rw [remote_file_size_fst, hn]
  simp [hsz]

/-- Remote-to-local file branch: a missing destination, an unknown size or
a size at most the threshold transfer unconditionally. -/
theorem r2l_file_direct (env : R2LEnv) (rp lp : String) (st : CopyState)
    (hstat : env.stat_err rp = false)
    (h : env.local_exists lp = false
      ∨ remote_size_val env.exec rp = none
      ∨ ∃ n, remote_size_val env.exec rp = some n ∧ n ≤ LARGE_FILE_MB * 1024 * 1024) :
    (smart_copy_remote_to_local env .file rp lp st).gets = st.gets ++ [(rp, lp)] := by
  simp only [smart_copy_remote_to_local, r2l_file, hstat, Bool.false_eq_true, if_false]
  rcases h with h | h | ⟨n, hn, hle⟩
  · simp [h, r2l_get_gets]
  · by_cases hex : env.local_exists lp = true
    · simp only [hex, if_true]
      rw [remote_file_size_fst, h]
      simp [r2l_get_gets]
    · simp only [Bool.not_eq_true] at hex
      simp [hex, r2l_get_gets]
  · by_cases hex : env.local_exists lp = true
    · simp only [hex, if_true]
      rw [remote_file_size_fst, hn]
      have hlt : ¬ LARGE_FILE_MB * 1024 * 1024 < n := by omega
      simp [hlt, r2l_get_gets]
    · simp only [Bool.not_eq_true] at hex
      simp [hex, r2l_get_gets]

/-- Remote-to-local comparison: skip exactly when the partial guard passes
and the two full results compare equal as optional values. -/
theorem r2l_large_skip (env : R2LEnv) (rp lp : String) (st : CopyState)
    (hp : (truthyOpt (remote_checksum_val env.exec rp "md5" false PARTIAL_MB)
        && truthyOpt (env.locsum lp false)
        && (remote_checksum_val env.exec rp "md5" false PARTIAL_MB == env.locsum lp false))
      = true)
    (hf : remote_checksum_val env.exec rp "md5" true PARTIAL_MB = env.locsum lp true) :
    (r2l_large env rp lp st).gets = st.gets
    ∧ (r2l_large env rp lp st).log.getLast? = some (skip_line rp lp) := by
  simp only [r2l_large, compute_remote_checksum_fst]
  rw [hf] at *
  simp [hp, pushLog, getLast?_log_command]

/-- Remote-to-local comparison: transfer when the partial guard fails or
the full results differ. -/
theorem r2l_large_get (env : R2LEnv) (rp lp : String) (st : CopyState)
    (h : (truthyOpt (remote_checksum_val env.exec rp "md5" false PARTIAL_MB)
        && truthyOpt (env.locsum lp false)
        && (remote_checksum_val env.exec rp "md5" false PARTIAL_MB == env.locsum lp false))
      = false
      ∨ remote_checksum_val env.exec rp "md5" true PARTIAL_MB ≠ env.locsum lp true) :
    (r2l_large env rp lp st).gets = st.gets ++ [(rp, lp)] := by
  simp only [r2l_large, compute_remote_checksum_fst]
  rcases h with h | h
  · simp [h, r2l_get_gets]
  · have hne : (remote_checksum_val env.exec rp "md5" true PARTIAL_MB
        == env.locsum lp true) = false := by
      simpa using h
    split
    · simp [hne, r2l_get_gets]
    · simp [r2l_get_gets]

/-! ## Small-file path (claim C3) -/

/-- Claim C3: for a source file of size at most 10 MB, copy always
transfers, regardless of whether the destination exists and of its
content: in both directions the run is exactly the existence/size query
followed by the unconditional transfer block (so no checksum comparison
happens), and the transfer is recorded.  The environments are arbitrary,
so the destination may hold content byte-identical to the source. -/
theorem small_file_unconditional_transfer
    (env : L2REnv) (renv : R2LEnv) (lp rp rp2 lp2 : String) (st st2 : CopyState) (n : Nat)
    (hsz : env.getsize lp ≤ LARGE_FILE_MB * 1024 * 1024)
    (hstat : renv.stat_err rp2 = false)
    (hn : remote_size_val renv.exec rp2 = some n)
    (hn2 : n ≤ LARGE_FILE_MB * 1024 * 1024) :
    smart_copy_local_to_remote env .file lp rp st
        = (l2r_put env lp rp (pushLog st (test_f_cmd rp)), none)
    ∧ (smart_copy_local_to_remote env .file lp rp st).1.puts = st.puts ++ [(lp, rp)]
    ∧ (smart_copy_remote_to_local renv .file rp2 lp2 st2).gets = st2.gets ++ [(rp2, lp2)] := by
  have h1 := l2r_file_direct env lp rp st (Or.inr hsz)
  refine ⟨h1, ?_, ?_⟩
  · rw [h1]
    simp only [pushLog]
    exact l2r_put_puts env lp rp _
  · exact r2l_file_direct renv rp2 lp2 st2 hstat (Or.inr (Or.inr ⟨n, hn, hn2⟩))

/-- A local-to-remote environment with a 5-byte source file and an
existing destination (`exec` reports exit status 0 for every command). -/
def envSmallL2R : L2REnv :=
  { exec := fun _ => ("", 0),
    getsize := fun _ => 5,
    locsum := fun _ _ => some "x",
    put_err := fun _ _ => none,
    scandir_err := fun _ => none }

/-- A remote-to-local environment whose remote file has size 5 bytes and
whose local destination exists. -/
def envSmallR2L : R2LEnv :=
  { exec := fun _ => ("5", 0),
    stat_err := fun _ => false,
    local_exists := fun _ => true,
    locsum := fun _ _ => some "x",
    get_err := fun _ _ => none,
    listdir_err := fun _ => false }

/-- Witness for C3: both directions transfer a 5-byte file whose
destination exists. -/
theorem small_file_unconditional_transfer_witness :
    (smart_copy_local_to_remote envSmallL2R .file "/l/f" "/r/f" initState).1.puts
        = [("/l/f", "/r/f")]
    ∧ (smart_copy_remote_to_local envSmallR2L .file "/r/g" "/l/g" initState).gets
        = [("/r/g", "/l/g")] := by
  have h := small_file_unconditional_transfer envSmallL2R envSmallR2L
    "/l/f" "/r/f" "/r/g" "/l/g" initState initState 5
    (by decide) rfl (by decide) (by decide)
  exact ⟨by simpa [initState] using h.2.1, by simpa [initState] using h.2.2⟩

/-! ## Large-file two-phase comparison (claim C2) -/

/-- Claim C2: for a source file over 10 MB whose destination exists, when
the partial and the full checksums are all four available and match, the
copy performs no byte transfer and appends the skip-identical line to the
diagnostic log; when the partial checksums (both available) differ, or the
partial checksums match and the full checksums (both available) differ, a
transfer is performed.  Both directions are covered. -/
theorem large_file_skip_and_transfer
    (env : L2REnv) (renv : R2LEnv) (lp rp rp2 lp2 : String) (st st2 : CopyState) (n : Nat)
    (hex : remote_exists_val env.exec rp = true)
    (hsz : LARGE_FILE_MB * 1024 * 1024 < env.getsize lp)
    (hstat : renv.stat_err rp2 = false)
    (hex2 : renv.local_exists lp2 = true)
    (hn : remote_size_val renv.exec rp2 = some n)
    (hsz2 : LARGE_FILE_MB * 1024 * 1024 < n) :
    (∀ a b, env.locsum lp false = some a → a ≠ "" →
        remote_checksum_val env.exec rp "md5" false PARTIAL_MB = some a →
        env.locsum lp true = some b →
        remote_checksum_val env.exec rp "md5" true PARTIAL_MB = some b →
        (smart_copy_local_to_remote env .file lp rp st).1.puts = st.puts
        ∧ (smart_copy_local_to_remote env .file lp rp st).1.log.getLast?
            = some (skip_line lp rp))
    ∧ (∀ a c, env.locsum lp false = some a →
        remote_checksum_val env.exec rp "md5" false PARTIAL_MB = some c → a ≠ c →
        (smart_copy_local_to_remote env .file lp rp st).1.puts = st.puts ++ [(lp, rp)])
    ∧ (∀ a b c, env.locsum lp false = some a → a ≠ "" →
        remote_checksum_val env.exec rp "md5" false PARTIAL_MB = some a →
        env.locsum lp true = some b →
        remote_checksum_val env.exec rp "md5" true PARTIAL_MB = some c → b ≠ c →
        (smart_copy_local_to_remote env .file lp rp st).1.puts = st.puts ++ [(lp, rp)])
    ∧ (∀ a b, renv.locsum lp2 false = some a → a ≠ "" →
        remote_checksum_val renv.exec rp2 "md5" false PARTIAL_MB = some a →
        renv.locsum lp2 true = some b →
        remote_checksum_val renv.exec rp2 "md5" true PARTIAL_MB = some b →
        (smart_copy_remote_to_local renv .file rp2 lp2 st2).gets = st2.gets
        ∧ (smart_copy_remote_to_local renv .file rp2 lp2 st2).log.getLast?
            = some (skip_line rp2 lp2))
    ∧ (∀ a c, renv.locsum lp2 false = some a →
        remote_checksum_val renv.exec rp2 "md5" false PARTIAL_MB = some c → a ≠ c →
        (smart_copy_remote_to_local renv .file rp2 lp2 st2).gets
          = st2.gets ++ [(rp2, lp2)])
    ∧ (∀ a b c, renv.locsum lp2 false = some a → a ≠ "" →
        remote_checksum_val renv.exec rp2 "md5" false PARTIAL_MB = some a →
        renv.locsum lp2 true = some b →
        remote_checksum_val renv.exec rp2 "md5" true PARTIAL_MB = some c → b ≠ c →
        (smart_copy_remote_to_local renv .file rp2 lp2 st2).gets
          = st2.gets ++ [(rp2, lp2)]) := by
  refine ⟨?_, ?_, ?_, ?_, ?_, ?_⟩
  · intro a b h1 h2 h3 h4 h5
    rw [l2r_file_comparison env lp rp st hex hsz]
    exact l2r_large_skip env lp rp _
      (by simp [truthyOpt, h1, h3, h2]) (h4.trans h5.symm)
  · intro a c h1 h3 hac
    rw [l2r_file_comparison env lp rp st hex hsz]
    have hne : (env.locsum lp false
        == remote_checksum_val env.exec rp "md5" false PARTIAL_MB) = false := by
      rw [h1, h3]
      simpa using hac
    rw [l2r_large_put env lp rp _ (Or.inl (by simp [hne]))]
    rfl
  · intro a b c h1 h2 h3 h4 h5 hbc
    rw [l2r_file_comparison env lp rp st hex hsz]
    rw [l2r_large_put env lp rp _ (Or.inr (by rw [h4, h5]; simpa using hbc))]
    rfl
  · intro a b h1 h2 h3 h4 h5
    rw [r2l_file_comparison renv rp2 lp2 st2 n hstat hex2 hn hsz2]
    exact r2l_large_skip renv rp2 lp2 _
      (by simp [truthyOpt, h1, h3, h2]) (h5.trans h4.symm)
  · intro a c h1 h3 hac
    rw [r2l_file_comparison renv rp2 lp2 st2 n hstat hex2 hn hsz2]
    have hne : (remote_checksum_val renv.exec rp2 "md5" false PARTIAL_MB
        == renv.locsum lp2 false) = false := by
      rw [h1, h3]
      simp
      intro he
      exact absurd he.symm hac
    rw [r2l_large_get renv rp2 lp2 _ (Or.inl (by simp [hne]))]
  · intro a b c h1 h2 h3 h4 h5 hbc
    rw [r2l_file_comparison renv rp2 lp2 st2 n hstat hex2 hn hsz2]
    rw [r2l_large_get renv rp2 lp2 _ (Or.inr (by rw [h4, h5]; simp; exact fun he => absurd he.symm hbc))]

/-- Local-to-remote: 20 MB + 1 byte file, destination exists, partial
digests both "aaa", full digests both "bbb" — a true duplicate. -/
def envSkipL2R : L2REnv :=
  { exec := fun c =>
      if c = test_f_cmd "/r/f" then ("", 0)
      else if c = full_sum_cmd "md5" "/r/f" then ("bbb f", 0)
      else ("aaa f", 0),
    getsize := fun _ => 20971521,
    locsum := fun _ full => if full then some "bbb" else some "aaa",
    put_err := fun _ _ => none,
    scandir_err := fun _ => none }

/-- Local-to-remote: large file whose partial digests differ. -/
def envPartDiffL2R : L2REnv :=
  { exec := fun c =>
      if c = test_f_cmd "/r/f" then ("", 0)
      else ("xxx f", 0),
    getsize := fun _ => 20971521,
    locsum := fun _ full => if full then some "bbb" else some "aaa",
    put_err := fun _ _ => none,
    scandir_err := fun _ => none }

/-- Local-to-remote: large file with matching partial digests but
differing full digests. -/
def envFullDiffL2R : L2REnv :=
  { exec := fun c =>
      if c = test_f_cmd "/r/f" then ("", 0)
      else if c = full_sum_cmd "md5" "/r/f" then ("ccc f", 0)
      else ("aaa f", 0),
    getsize := fun _ => 20971521,
    locsum := fun _ full => if full then some "bbb" else some "aaa",
    put_err := fun _ _ => none,
    scandir_err := fun _ => none }

/-- Remote-to-local: 20 MB + 1 byte remote file, local destination
exists, all four digests match. -/
def envSkipR2L : R2LEnv :=
  { exec := fun c =>
      if c = "stat -c %s \x27/r/g\x27" then ("20971521", 0)
      else if c = test_f_cmd "/r/g" then ("", 0)
      else if c = full_sum_cmd "md5" "/r/g" then ("bbb f", 0)
      else ("aaa f", 0),
    stat_err := fun _ => false,
    local_exists := fun _ => true,
    locsum := fun _ full => if full then some "bbb" else some "aaa",
    get_err := fun _ _ => none,
    listdir_err := fun _ => false }

/-- Remote-to-local: large remote file whose partial digests differ. -/
def envPartDiffR2L : R2LEnv :=
  { exec := fun c =>
      if c = "stat -c %s \x27/r/g\x27" then ("20971521", 0)
      else if c = test_f_cmd "/r/g" then ("", 0)
      else ("xxx f", 0),
    stat_err := fun _ => false,
    local_exists := fun _ => true,
    locsum := fun _ full => if full then some "bbb" else some "aaa",
    get_err := fun _ _ => none,
    listdir_err := fun _ => false }

/-- Remote-to-local: matching partial digests, differing full digests. -/
def envFullDiffR2L : R2LEnv :=
  { exec := fun c =>
      if c = "stat -c %s \x27/r/g\x27" then ("20971521", 0)
      else if c = test_f_cmd "/r/g" then ("", 0)
      else if c = full_sum_cmd "md5" "/r/g" then ("ccc f", 0)
      else ("aaa f", 0),
    stat_err := fun _ => false,
    local_exists := fun _ => true,
    locsum := fun _ full => if full then some "bbb" else some "aaa",
    get_err := fun _ _ => none,
    listdir_err := fun _ => false }

/-- Witness for C2: the three scenarios in each direction on concrete
20 MB + 1 byte files. -/
theorem large_file_skip_and_transfer_witness :
    ((smart_copy_local_to_remote envSkipL2R .file "/l/f" "/r/f" initState).1.puts = []
      ∧ (smart_copy_local_to_remote envSkipL2R .file "/l/f" "/r/f" initState).1.log.getLast?
          = some (skip_line "/l/f" "/r/f"))
    ∧ (smart_copy_local_to_remote envPartDiffL2R .file "/l/f" "/r/f" initState).1.puts
        = [("/l/f", "/r/f")]
    ∧ (smart_copy_local_to_remote envFullDiffL2R .file "/l/f" "/r/f" initState).1.puts
        = [("/l/f", "/r/f")]
    ∧ ((smart_copy_remote_to_local envSkipR2L .file "/r/g" "/l/g" initState).gets = []
      ∧ (smart_copy_remote_to_local envSkipR2L .file "/r/g" "/l/g" initState).log.getLast?
          = some (skip_line "/r/g" "/l/g"))
    ∧ (smart_copy_remote_to_local envPartDiffR2L .file "/r/g" "/l/g" initState).gets
        = [("/r/g", "/l/g")]
    ∧ (smart_copy_remote_to_local envFullDiffR2L .file "/r/g" "/l/g" initState).gets
        = [("/r/g", "/l/g")] := by
  have hskip := (large_file_skip_and_transfer envSkipL2R envSkipR2L
    "/l/f" "/r/f" "/r/g" "/l/g" initState initState 20971521
    (by decide) (by decide) rfl rfl (by decide) (by decide))
  have hpart := (large_file_skip_and_transfer envPartDiffL2R envPartDiffR2L
    "/l/f" "/r/f" "/r/g" "/l/g" initState initState 20971521
    (by decide) (by decide) rfl rfl (by decide) (by decide))
  have hfull := (large_file_skip_and_transfer envFullDiffL2R envFullDiffR2L
    "/l/f" "/r/f" "/r/g" "/l/g" initState initState 20971521
    (by decide) (by decide) rfl rfl (by decide) (by decide))
  refine ⟨?_, ?_, ?_, ?_, ?_, ?_⟩
  · have h := hskip.1 "aaa" "bbb" rfl (by decide) (by decide) rfl (by decide)
    exact ⟨h.1, h.2⟩
  · have h := hpart.2.1 "aaa" "xxx" rfl (by decide) (by decide)
    simpa [initState] using h
  · have h := hfull.2.2.1 "aaa" "bbb" "ccc" rfl (by decide) (by decide) rfl
      (by decide) (by decide)
    simpa [initState] using h
  · have h := hskip.2.2.2.1 "aaa" "bbb" rfl (by decide) (by decide) rfl (by decide)
    exact ⟨h.1, h.2⟩
  · have h := hpart.2.2.2.2.1 "aaa" "xxx" rfl (by decide) (by decide)
    simpa [initState] using h
  · have h := hfull.2.2.2.2.2 "aaa" "bbb" "ccc" rfl (by decide) (by decide) rfl
      (by decide) (by decide)
    simpa [initState] using h

/-! ## The missing None-guard on the full comparison (claim C1) -/

/-- Local-to-remote: 20 MB + 1 byte file, destination exists, partial
digests match, but both full digests are unavailable — the local full
read fails (`None`) and the remote full digest command exits non-zero. -/
def envC1 : L2REnv :=
  { exec := fun c =>
      if c = test_f_cmd "/r/f" then ("", 0)
      else if c = full_sum_cmd "md5" "/r/f" then ("", 1)
      else ("aaa f", 0),
    getsize := fun _ => 20971521,
    locsum := fun _ full => if full then none else some "aaa",
    put_err := fun _ _ => none,
    scandir_err := fun _ => none }

/-- Counterexample to C1: with both full checksums unavailable (`None`)
the bare `csum_loc_full == csum_rem_full` comparison succeeds, so the copy
silently skips — no transfer is performed and the skip-identical line is
logged, contradicting the claim that an unavailable full checksum forces
a transfer. -/
theorem skip_despite_unavailable_full_checksums :
    envC1.locsum "/l/f" true = none
    ∧ remote_checksum_val envC1.exec "/r/f" "md5" true PARTIAL_MB = none
    ∧ (smart_copy_local_to_remote envC1 .file "/l/f" "/r/f" initState).1.puts = []
    ∧ (smart_copy_local_to_remote envC1 .file "/l/f" "/r/f" initState).1.log.getLast?
        = some (skip_line "/l/f" "/r/f") := by
  refine ⟨rfl, by decide, by decide, by decide⟩

/-- Claim C1 (amended): in the large-file path with matching partial
checksums, the copy skips exactly when the two full-checksum results are
equal **as optional values** — including the case where both are
unavailable (`None == None`); a transfer happens only when the full
results differ, in particular when exactly one of them is unavailable.
Both directions are covered. -/
theorem large_file_skip_iff_full_option_eq
    (env : L2REnv) (renv : R2LEnv) (lp rp rp2 lp2 : String) (st st2 : CopyState)
    (n : Nat) (a a2 : String)
    (hex : remote_exists_val env.exec rp = true)
    (hsz : LARGE_FILE_MB * 1024 * 1024 < env.getsize lp)
    (hpl : env.locsum lp false = some a) (ha : a ≠ "")
    (hpr : remote_checksum_val env.exec rp "md5" false PARTIAL_MB = some a)
    (hstat : renv.stat_err rp2 = false)
    (hex2 : renv.local_exists lp2 = true)
    (hn : remote_size_val renv.exec rp2 = some n)
    (hsz2 : LARGE_FILE_MB * 1024 * 1024 < n)
    (hpl2 : renv.locsum lp2 false = some a2) (ha2 : a2 ≠ "")
    (hpr2 : remote_checksum_val renv.exec rp2 "md5" false PARTIAL_MB = some a2) :
    (env.locsum lp true = remote_checksum_val env.exec rp "md5" true PARTIAL_MB →
      (smart_copy_local_to_remote env .file lp rp st).1.puts = st.puts
      ∧ (smart_copy_local_to_remote env .file lp rp st).1.log.getLast?
          = some (skip_line lp rp))
    ∧ (env.locsum lp true ≠ remote_checksum_val env.exec rp "md5" true PARTIAL_MB →
      (smart_copy_local_to_remote env .file lp rp st).1.puts = st.puts ++ [(lp, rp)])
    ∧ (remote_checksum_val renv.exec rp2 "md5" true PARTIAL_MB = renv.locsum lp2 true →
      (smart_copy_remote_to_local renv .file rp2 lp2 st2).gets = st2.gets
      ∧ (smart_copy_remote_to_local renv .file rp2 lp2 st2).log.getLast?
          = some (skip_line rp2 lp2))
    ∧ (remote_checksum_val renv.exec rp2 "md5" true PARTIAL_MB ≠ renv.locsum lp2 true →
      (smart_copy_remote_to_local renv .file rp2 lp2 st2).gets
        = st2.gets ++ [(rp2, lp2)]) := by
  refine ⟨?_, ?_, ?_, ?_⟩
  · intro hf
    rw [l2r_file_comparison env lp rp st hex hsz]
    exact l2r_large_skip env lp rp _ (by simp [truthyOpt, hpl, hpr, ha]) hf
  · intro hf
    rw [l2r_file_comparison env lp rp st hex hsz]
    rw [l2r_large_put env lp rp _ (Or.inr hf)]
    rfl
  · intro hf
    rw [r2l_file_comparison renv rp2 lp2 st2 n hstat hex2 hn hsz2]
    exact r2l_large_skip renv rp2 lp2 _ (by simp [truthyOpt, hpl2, hpr2, ha2]) hf
  · intro hf
    rw [r2l_file_comparison renv rp2 lp2 st2 n hstat hex2 hn hsz2]
    rw [r2l_large_get renv rp2 lp2 _ (Or.inr hf)]

/-- Remote-to-local: matching partial digests; the remote full digest
command fails (`None`) while the local full digest is available — exactly
one side unavailable, so the options differ and a transfer occurs. -/
def envC1R2L : R2LEnv :=
  { exec := fun c =>
      if c = "stat -c %s \x27/r/g\x27" then ("20971521", 0)
      else if c = test_f_cmd "/r/g" then ("", 0)
      else if c = full_sum_cmd "md5" "/r/g" then ("", 1)
      else ("aaa f", 0),
    stat_err := fun _ => false,
    local_exists := fun _ => true,
    locsum := fun _ full => if full then some "bbb" else some "aaa",
    get_err := fun _ _ => none,
    listdir_err := fun _ => false }

/-- Witness for the amended C1: both full results unavailable gives a
skip (local to remote), exactly one unavailable gives a transfer (remote
to local). -/
theorem large_file_skip_iff_full_option_eq_witness :
    (smart_copy_local_to_remote envC1 .file "/l/f" "/r/f" initState).1.puts = []
    ∧ (smart_copy_remote_to_local envC1R2L .file "/r/g" "/l/g" initState).gets
        = [("/r/g", "/l/g")] := by
  have h := large_file_skip_iff_full_option_eq envC1 envC1R2L
    "/l/f" "/r/f" "/r/g" "/l/g" initState initState 20971521 "aaa" "aaa"
    (by decide) (by decide) rfl (by decide) (by decide)
    rfl rfl (by decide) (by decide) rfl (by decide) (by decide)
  refine ⟨(h.1 (by decide)).1, ?_⟩
  have h2 := h.2.2.2 (by decide)
  simpa [initState] using h2

/-! ## Per-file failure containment in the recursive walk (claim C5) -/

/-- Claim C5: an exception raised by the byte transfer of one file is
caught at that file's granularity — the failing step appends a
`Fehler: <e>` line — and does not abort the recursive walk: in a
directory of two files whose first transfer fails, the second file's
transfer is still attempted, in both directions, and the walk returns
normally. -/
theorem l2r_file_puts_noexist (env : L2REnv) (lp rp : String) (st : CopyState)
    (hex : remote_exists_val env.exec rp = false) :
    (l2r_file env lp rp st).puts = st.puts ++ [(lp, rp)] := by
  simp only [l2r_file, remote_file_exists]
  simp only [remote_exists_val] at hex
  simp [hex, l2r_put_puts]

theorem r2l_file_gets_noexist (env : R2LEnv) (rp lp : String) (st : CopyState)
    (hle : env.local_exists lp = false) :
    (r2l_file env rp lp st).gets = st.gets ++ [(rp, lp)] := by
  simp [r2l_file, hle, r2l_get_gets]

theorem transfer_failure_does_not_abort_walk
    (env : L2REnv) (renv : R2LEnv) (lp rp rp2 lp2 na nb : String)
    (st st2 : CopyState) (e e2 : String)
    (hscan : env.scandir_err lp = none)
    (hput : env.put_err (os_path_join lp na) (remote_join rp na) = some e)
    (hexa : remote_exists_val env.exec (remote_join rp na) = false)
    (hexb : remote_exists_val env.exec (remote_join rp nb) = false)
    (hstat : renv.stat_err rp2 = false)
    (hlist : renv.listdir_err rp2 = false)
    (hstata : renv.stat_err (remote_join rp2 na) = false)
    (hstatb : renv.stat_err (remote_join rp2 nb) = false)
    (hlea : renv.local_exists (os_path_join lp2 na) = false)
    (hleb : renv.local_exists (os_path_join lp2 nb) = false)
    (hget : renv.get_err (remote_join rp2 na) (os_path_join lp2 na) = some e2) :
    ((smart_copy_local_to_remote env (.dir [(na, .file), (nb, .file)]) lp rp st).1.puts
        = st.puts ++ [(os_path_join lp na, remote_join rp na),
                      (os_path_join lp nb, remote_join rp nb)]
      ∧ (smart_copy_local_to_remote env (.dir [(na, .file), (nb, .file)]) lp rp st).2
        = none)
    ∧ (∀ s : CopyState,
        (l2r_put env (os_path_join lp na) (remote_join rp na) s).log.getLast?
          = some ("Fehler: " ++ e))
    ∧ (smart_copy_remote_to_local renv (.dir [(na, .file), (nb, .file)]) rp2 lp2 st2).gets
        = st2.gets ++ [(remote_join rp2 na, os_path_join lp2 na),
                       (remote_join rp2 nb, os_path_join lp2 nb)]
    ∧ (∀ s : CopyState,
        (r2l_get renv (remote_join rp2 na) (os_path_join lp2 na) s).log.getLast?
          = some ("Fehler: " ++ e2)) := by
  refine ⟨?_, ?_, ?_, ?_⟩
  · simp only [smart_copy_local_to_remote, hscan, l2r_children]
    constructor
    · rw [l2r_file_puts_noexist _ _ _ _ hexb, l2r_file_puts_noexist _ _ _ _ hexa]
      simp
    · trivial
  · intro s
    simp only [l2r_put, hput, pushLog, getLast?_log_command]
  · simp only [smart_copy_remote_to_local, hstat, hlist, hstata, hstatb,
      Bool.false_eq_true, if_false, r2l_children]
    rw [r2l_file_gets_noexist _ _ _ _ hleb, r2l_file_gets_noexist _ _ _ _ hlea]
    split <;> simp
  · intro s
    simp only [r2l_get, hget, pushLog, getLast?_log_command]

/-- Local-to-remote: directory of two small files whose first `sftp.put`
raises; nothing exists remotely. -/
def envFailL2R : L2REnv :=
  { exec := fun _ => ("", 1),
    getsize := fun _ => 5,
    locsum := fun _ _ => none,
    put_err := fun a _ => if a = "/l/d/a" then some "boom" else none,
    scandir_err := fun _ => none }

/-- Remote-to-local: directory of two files whose first `sftp.get`
raises; nothing exists locally. -/
def envFailR2L : R2LEnv :=
  { exec := fun _ => ("", 1),
    stat_err := fun _ => false,
    local_exists := fun _ => false,
    locsum := fun _ _ => none,
    get_err := fun a _ => if a = "/r/d/a" then some "kaput" else none,
    listdir_err := fun _ => false }

/-- Witness for C5: after the first file's transfer fails, the sibling is
still transferred in both directions, and the failing step logs the
`Fehler` line. -/
theorem transfer_failure_does_not_abort_walk_witness :
    (smart_copy_local_to_remote envFailL2R (.dir [("a", .file), ("b", .file)])
        "/l/d" "/r/d" initState).1.puts
      = [("/l/d/a", "/r/d/a"), ("/l/d/b", "/r/d/b")]
    ∧ (l2r_put envFailL2R "/l/d/a" "/r/d/a" initState).log.getLast?
        = some "Fehler: boom"
    ∧ (smart_copy_remote_to_local envFailR2L (.dir [("a", .file), ("b", .file)])
        "/r/d" "/l/d" initState).gets
      = [("/r/d/a", "/l/d/a"), ("/r/d/b", "/l/d/b")]
    ∧ (r2l_get envFailR2L "/r/d/a" "/l/d/a" initState).log.getLast?
        = some "Fehler: kaput" := by
  have h := transfer_failure_does_not_abort_walk envFailL2R envFailR2L
    "/l/d" "/r/d" "/r/d" "/l/d" "a" "b" initState initState "boom" "kaput"
    rfl (by decide) (by decide) (by decide) rfl rfl rfl rfl (by decide) (by decide)
    (by decide)
  have hx : os_path_join "/l/d" "a" = "/l/d/a" := by decide
  have hy : remote_join "/r/d" "a" = "/r/d/a" := by decide
  refine ⟨h.1.1.trans (by decide), ?_, h.2.2.1.trans (by decide), ?_⟩
  · have hia := h.2.1 initState
    rw [hx, hy] at hia
    exact hia
  · have hia := h.2.2.2 initState
    rw [hx, hy] at hia
    exact hia

/-! ## Child path construction (claim C9) -/

/-- A plain environment: no remote files, all transfers succeed. -/
def envC9 : L2REnv :=
  { exec := fun _ => ("", 1),
    getsize := fun _ => 5,
    locsum := fun _ _ => none,
    put_err := fun _ _ => none,
    scandir_err := fun _ => none }

/-- Counterexample to C9: copying the directory `/a//` (destination
remote, so by the claim both child paths would use the POSIX-style manual
concatenation, which gives `/a/n`), the recorded transfer uses the
`os.path.join` source child `/a//n` — the source child is built with the
source side's grammar, not the destination's. -/
theorem child_paths_not_destination_grammar :
    (smart_copy_local_to_remote envC9 (.dir [("n", .file)]) "/a//" "/r" initState).1.puts
        = [("/a//n", "/r/n")]
    ∧ remote_join "/a//" "n" = "/a/n"
    ∧ ("/a//n" : String) ≠ "/a/n" := by
  exact ⟨by decide, by decide, by decide⟩

/-- Claim C9 (amended): during a recursive copy each child location is
built by appending the entry name to its parent with **its own side's**
path grammar — `os.path.join` for the local parent and the manual
POSIX concatenation for the remote parent — in both copy directions; the
two grammars genuinely differ (e.g. on a parent with a trailing double
slash). -/
theorem child_paths_use_own_side_grammar
    (env : L2REnv) (renv : R2LEnv) (name : String) (t : FsTree)
    (lp rp rp2 lp2 : String) (st st2 : CopyState) :
    l2r_children env [(name, t)] lp rp st
        = smart_copy_local_to_remote env t (os_path_join lp name) (remote_join rp name) st
    ∧ r2l_children renv [(name, t)] rp2 lp2 st2
        = smart_copy_remote_to_local renv t (remote_join rp2 name) (os_path_join lp2 name) st2
    ∧ os_path_join "/a//" "n" ≠ remote_join "/a//" "n" := by
  refine ⟨?_, ?_, by decide⟩
  · rcases hr : smart_copy_local_to_remote env t (os_path_join lp name) (remote_join rp name) st
      with ⟨st1, ex⟩
    cases ex <;> simp [l2r_children, hr]
  · simp [r2l_children]

/-! ## The copy phase performs no deletions (toward claim C6) -/

theorem l2r_put_rm (env : L2REnv) (lp rp : String) (st : CopyState) :
    (l2r_put env lp rp st).rm_local = st.rm_local
    ∧ (l2r_put env lp rp st).rm_remote = st.rm_remote
    ∧ (l2r_put env lp rp st).rmdirs = st.rmdirs := by
  cases h : env.put_err lp rp <;> simp [l2r_put, h, pushLog]

theorem l2r_large_rm (env : L2REnv) (lp rp : String) (st : CopyState) :
    (l2r_large env lp rp st).rm_local = st.rm_local
    ∧ (l2r_large env lp rp st).rm_remote = st.rm_remote
    ∧ (l2r_large env lp rp st).rmdirs = st.rmdirs := by
  simp only [l2r_large]
  split
  · split
    · exact ⟨rfl, rfl, rfl⟩
    · exact l2r_put_rm env lp rp _
  · exact l2r_put_rm env lp rp _

theorem l2r_file_rm (env : L2REnv) (lp rp : String) (st : CopyState) :
    (l2r_file env lp rp st).rm_local = st.rm_local
    ∧ (l2r_file env lp rp st).rm_remote = st.rm_remote
    ∧ (l2r_file env lp rp st).rmdirs = st.rmdirs := by
  simp only [l2r_file]
  split
  · exact l2r_large_rm env lp rp _
  · exact l2r_put_rm env lp rp _

mutual

/-- The local-to-remote copy walk never records a removal. -/
theorem copy_l2r_rm (env : L2REnv) (t : FsTree) (lp rp : String) (st : CopyState) :
    (smart_copy_local_to_remote env t lp rp st).1.rm_local = st.rm_local
    ∧ (smart_copy_local_to_remote env t lp rp st).1.rm_remote = st.rm_remote
    ∧ (smart_copy_local_to_remote env t lp rp st).1.rmdirs = st.rmdirs :=
  match t with
  | .file => l2r_file_rm env lp rp _
  | .dir entries => by
      simp only [smart_copy_local_to_remote]
      cases hs : env.scandir_err lp with
      | some e => exact ⟨rfl, rfl, rfl⟩
      | none => exact copy_l2r_children_rm env entries lp rp _

/-- The children loop of the local-to-remote walk never records a removal. -/
theorem copy_l2r_children_rm (env : L2REnv) (l : List (String × FsTree))
    (lp rp : String) (st : CopyState) :
    (l2r_children env l lp rp st).1.rm_local = st.rm_local
    ∧ (l2r_children env l lp rp st).1.rm_remote = st.rm_remote
    ∧ (l2r_children env l lp rp st).1.rmdirs = st.rmdirs :=
  match l with
  | [] => ⟨rfl, rfl, rfl⟩
  | (name, child) :: rest => by
      simp only [l2r_children]
      have h1 := copy_l2r_rm env child (os_path_join lp name) (remote_join rp name) st
      rcases hr : smart_copy_local_to_remote env child (os_path_join lp name)
        (remote_join rp name) st with ⟨st1, ex⟩
      rw [hr] at h1
      cases ex with
      | some e => simpa [hr] using h1
      | none =>
          have h2 := copy_l2r_children_rm env rest lp rp st1
          simp only [hr]
          exact ⟨h2.1.trans h1.1, h2.2.1.trans h1.2.1, h2.2.2.trans h1.2.2⟩

end

theorem r2l_get_rm (env : R2LEnv) (rp lp : String) (st : CopyState) :
    (r2l_get env rp lp st).rm_local = st.rm_local
    ∧ (r2l_get env rp lp st).rm_remote = st.rm_remote
    ∧ (r2l_get env rp lp st).rmdirs = st.rmdirs := by
  cases h : env.get_err rp lp <;> simp [r2l_get, h, pushLog]

theorem r2l_large_rm (env : R2LEnv) (rp lp : String) (st : CopyState) :
    (r2l_large env rp lp st).rm_local = st.rm_local
    ∧ (r2l_large env rp lp st).rm_remote = st.rm_remote
    ∧ (r2l_large env rp lp st).rmdirs = st.rmdirs := by
  simp only [r2l_large]
  split
  · split
    · exact ⟨rfl, rfl, rfl⟩
    · exact r2l_get_rm env rp lp _
  · exact r2l_get_rm env rp lp _

theorem r2l_file_rm (env : R2LEnv) (rp lp : String) (st : CopyState) :
    (r2l_file env rp lp st).rm_local = st.rm_local
    ∧ (r2l_file env rp lp st).rm_remote = st.rm_remote
    ∧ (r2l_file env rp lp st).rmdirs = st.rmdirs := by
  simp only [r2l_file]
  split
  · split
    · split
      · exact r2l_large_rm env rp lp _
      · exact r2l_get_rm env rp lp _
    · exact r2l_get_rm env rp lp _
  · exact r2l_get_rm env rp lp _

mutual

/-- The remote-to-local copy walk never records a removal. -/
theorem copy_r2l_rm (env : R2LEnv) (t : FsTree) (rp lp : String) (st : CopyState) :
    (smart_copy_remote_to_local env t rp lp st).rm_local = st.rm_local
    ∧ (smart_copy_remote_to_local env t rp lp st).rm_remote = st.rm_remote
    ∧ (smart_copy_remote_to_local env t rp lp st).rmdirs = st.rmdirs :=
  match t with
  | .file => by
      simp only [smart_copy_remote_to_local]
      split
      · exact ⟨rfl, rfl, rfl⟩
      · exact r2l_file_rm env rp lp _
  | .dir entries => by
      simp only [smart_copy_remote_to_local]
      split
      · exact ⟨rfl, rfl, rfl⟩
      · split
        · split <;> exact ⟨rfl, rfl, rfl⟩
        · have h2 := copy_r2l_children_rm env entries rp lp
            (if env.local_exists lp = true then st
             else { st with mkdirs := st.mkdirs ++ [lp] })
          refine ⟨h2.1.trans ?_, h2.2.1.trans ?_, h2.2.2.trans ?_⟩ <;>
            split <;> rfl

/-- The children loop of the remote-to-local walk never records a removal. -/
theorem copy_r2l_children_rm (env : R2LEnv) (l : List (String × FsTree))
    (rp lp : String) (st : CopyState) :
    (r2l_children env l rp lp st).rm_local = st.rm_local
    ∧ (r2l_children env l rp lp st).rm_remote = st.rm_remote
    ∧ (r2l_children env l rp lp st).rmdirs = st.rmdirs :=
  match l with
  | [] => ⟨rfl, rfl, rfl⟩
  | (name, child) :: rest => by
      simp only [r2l_children]
      have h1 := copy_r2l_rm env child (remote_join rp name) (os_path_join lp name) st
      have h2 := copy_r2l_children_rm env rest rp lp
        (smart_copy_remote_to_local env child (remote_join rp name) (os_path_join lp name) st)
      exact ⟨h2.1.trans h1.1, h2.2.1.trans h1.2.1, h2.2.2.trans h1.2.2⟩

end

/-! ## Move atomicity boundary (claim C6) -/

/-- Claim C6: in a move no deletion of the source happens unless the copy
phase has returned.  The copy phase itself records no removal; if the
local-to-remote copy throws (uncaught `os.scandir` error partway through
a directory), the move propagates the exception with the source
untouched; once the copy returns, the source is removed — a file
directly, a directory as a recursive subtree delete — regardless of the
per-file outcomes inside the copy.  For the remote-to-local direction
(whose copy phase catches every failure and always returns) the removal
runs strictly on the copy's result state: a file through `sftp.remove`, a
directory through the recursive subtree delete. -/
theorem move_deletes_only_after_copy
    (env : L2REnv) (rm_err : String → Option String) (renv : R2LEnv) (rmenv : RmEnv)
    (stat_err2 remove_err2 : String → Option String)
    (t t2 : FsTree) (entries : List (String × FsTree))
    (lp rp rp2 lp2 rp3 lp3 : String) (st st2 st3 : CopyState) :
    (smart_copy_local_to_remote env t lp rp st).1.rm_local = st.rm_local
    ∧ ((smart_copy_remote_to_local renv t2 rp2 lp2 st2).rm_remote = st2.rm_remote
        ∧ (smart_copy_remote_to_local renv t2 rp2 lp2 st2).rmdirs = st2.rmdirs)
    ∧ (∀ stc e, smart_copy_local_to_remote env t lp rp st = (stc, some e) →
        move_file_local_to_remote env rm_err t lp rp st = (stc, some e)
        ∧ stc.rm_local = st.rm_local)
    ∧ (∀ stc, smart_copy_local_to_remote env t lp rp st = (stc, none) →
        rm_err lp = none →
        (move_file_local_to_remote env rm_err t lp rp st).1.rm_local
          = stc.rm_local ++ [(lp, t.isDirectory)])
    ∧ (stat_err2 rp2 = none → remove_err2 rp2 = none →
        move_file_remote_to_local renv rmenv stat_err2 remove_err2 .file rp2 lp2 st2
          = pushLog { (smart_copy_remote_to_local renv .file rp2 lp2 st2) with
              rm_remote :=
                (smart_copy_remote_to_local renv .file rp2 lp2 st2).rm_remote ++ [rp2] }
              ("RM REMOTE " ++ rp2))
    ∧ (stat_err2 rp3 = none →
        move_file_remote_to_local renv rmenv stat_err2 remove_err2 (.dir entries) rp3 lp3 st3
          = pushLog (remove_remote_dir_recursive rmenv (.dir entries) rp3
              (smart_copy_remote_to_local renv (.dir entries) rp3 lp3 st3))
              ("RM REMOTE DIR " ++ rp3)) := by
  refine ⟨(copy_l2r_rm env t lp rp st).1,
    ⟨(copy_r2l_rm renv t2 rp2 lp2 st2).2.1, (copy_r2l_rm renv t2 rp2 lp2 st2).2.2⟩,
    ?_, ?_, ?_, ?_⟩
  · intro stc e hr
    refine ⟨?_, ?_⟩
    · simp only [move_file_local_to_remote, hr]
    · have := (copy_l2r_rm env t lp rp st).1
      rw [hr] at this
      exact this
  · intro stc hr hrm
    cases t with
    | file => simp [move_file_local_to_remote, hr, hrm, pushLog, FsTree.isDirectory]
    | dir es => simp [move_file_local_to_remote, hr, hrm, pushLog, FsTree.isDirectory]
  · intro hs hrm
    simp [move_file_remote_to_local, hs, hrm]
  · intro hs
    simp [move_file_remote_to_local, hs]

/-- Local-to-remote: nothing exists remotely, transfers succeed, but
listing the subdirectory `/l/m/sub` raises partway through the copy. -/
def envMoveL2R : L2REnv :=
  { exec := fun _ => ("", 1),
    getsize := fun _ => 5,
    locsum := fun _ _ => none,
    put_err := fun _ _ => none,
    scandir_err := fun p => if p = "/l/m/sub" then some "denied" else none }

/-- A remote-removal environment where every operation succeeds. -/
def rmEnvOk : RmEnv :=
  { listdir_err := fun _ => false,
    remove_err := fun _ => none,
    rmdir_err := fun _ => false }

/-- Witness for C6: a move whose copy throws after transferring the first
file deletes nothing and propagates the exception; a file move deletes
the source file after the copy; a remote directory move removes the
subtree (child file, then the directory) after the copy. -/
theorem move_deletes_only_after_copy_witness :
    ((move_file_local_to_remote envMoveL2R (fun _ => none)
        (.dir [("a", .file), ("sub", .dir [])]) "/l/m" "/r/m" initState).2
          = some "denied"
      ∧ (move_file_local_to_remote envMoveL2R (fun _ => none)
        (.dir [("a", .file), ("sub", .dir [])]) "/l/m" "/r/m" initState).1.rm_local = []
      ∧ (move_file_local_to_remote envMoveL2R (fun _ => none)
        (.dir [("a", .file), ("sub", .dir [])]) "/l/m" "/r/m" initState).1.puts
          = [("/l/m/a", "/r/m/a")])
    ∧ (move_file_local_to_remote envC9 (fun _ => none) .file "/l/f" "/r/f" initState).1.rm_local
        = [("/l/f", false)]
    ∧ (move_file_remote_to_local envFailR2L rmEnvOk (fun _ => none) (fun _ => none)
        .file "/r/x" "/l/x" initState).rm_remote = ["/r/x"]
    ∧ ((move_file_remote_to_local envFailR2L rmEnvOk (fun _ => none) (fun _ => none)
        (.dir [("c", .file)]) "/r/y" "/l/y" initState).rm_remote = ["/r/y/c"]
      ∧ (move_file_remote_to_local envFailR2L rmEnvOk (fun _ => none) (fun _ => none)
        (.dir [("c", .file)]) "/r/y" "/l/y" initState).rmdirs = ["/r/y"]) := by
  have hcopy : smart_copy_local_to_remote envMoveL2R
      (.dir [("a", FsTree.file), ("sub", FsTree.dir [])]) "/l/m" "/r/m" initState
      = ({ log := [test_f_cmd "/r/m/a", "PUT /l/m/a -> /r/m/a"],
           puts := [("/l/m/a", "/r/m/a")], gets := [],
           mkdirs := ["/r/m", "/r/m/sub"], rm_local := [], rm_remote := [],
           rmdirs := [] }, some "denied") := by decide
  have h1 := (move_deletes_only_after_copy envMoveL2R (fun _ => none) envFailR2L rmEnvOk
    (fun _ => none) (fun _ => none) (.dir [("a", .file), ("sub", .dir [])]) .file
    [] "/l/m" "/r/m" "/r/x" "/l/x" "/r/y" "/l/y" initState initState initState).2.2.1
    _ "denied" hcopy
  have hcopy2 : smart_copy_local_to_remote envC9 .file "/l/f" "/r/f" initState
      = ({ log := [test_f_cmd "/r/f", "PUT /l/f -> /r/f"],
           puts := [("/l/f", "/r/f")], gets := [], mkdirs := [], rm_local := [],
           rm_remote := [], rmdirs := [] }, none) := by decide
  have h2 := (move_deletes_only_after_copy envC9 (fun _ => none) envFailR2L rmEnvOk
    (fun _ => none) (fun _ => none) .file .file
    [] "/l/f" "/r/f" "/r/x" "/l/x" "/r/y" "/l/y" initState initState initState).2.2.2.1
    _ hcopy2 rfl
  have h3 := (move_deletes_only_after_copy envC9 (fun _ => none) envFailR2L rmEnvOk
    (fun _ => none) (fun _ => none) .file .file
    [] "/l/f" "/r/f" "/r/x" "/l/x" "/r/y" "/l/y" initState initState initState).2.2.2.2.1
    rfl rfl
  have h4 := (move_deletes_only_after_copy envC9 (fun _ => none) envFailR2L rmEnvOk
    (fun _ => none) (fun _ => none) .file .file
    [("c", .file)] "/l/f" "/r/f" "/r/x" "/l/x" "/r/y" "/l/y"
    initState initState initState).2.2.2.2.2 rfl
  refine ⟨⟨?_, ?_, ?_⟩, ?_, ?_, ?_, ?_⟩
  · rw [h1.1]
  · rw [h1.1]
  · rw [h1.1]
  · rw [h2]
    decide
  · rw [h3]
    decide
  · rw [h4]
    decide
  · rw [h4]
    decide

/-! ## Recursive remote delete granularity (claim C7) -/

/-- A removal environment where deleting the file `/r/d/a` raises and
everything else succeeds. -/
def rmEnvFail : RmEnv :=
  { listdir_err := fun _ => false,
    remove_err := fun p => if p = "/r/d/a" then some "err" else none,
    rmdir_err := fun _ => false }

/-- Counterexample to C7: in a directory of two files where removing the
first raises, the one `try/except` wrapping the whole loop aborts the
walk — the second file, though removable, is never removed, and no
`rmdir` happens. -/
theorem remove_tree_stops_on_child_failure :
    (remove_remote_dir_recursive rmEnvFail (.dir [("a", .file), ("b", .file)])
        "/r/d" initState).rm_remote = []
    ∧ (remove_remote_dir_recursive rmEnvFail (.dir [("a", .file), ("b", .file)])
        "/r/d" initState).rmdirs = []
    ∧ rmEnvFail.remove_err "/r/d/b" = none := by
  exact ⟨by decide, by decide, by decide⟩

/-- Claim C7 (amended): `remove_remote_dir_recursive` is best-effort only
across *subdirectory* children — a failure inside a subdirectory child is
swallowed by that child's own `except` and the parent loop continues with
its remaining siblings — but an `sftp.remove` failure on a *file* child
propagates to the parent's single `try`, stopping the remaining siblings
of that directory and its final `rmdir`. -/
theorem remove_tree_abort_granularity
    (env : RmEnv) (nd nf : String) (rest : List (String × FsTree))
    (path : String) (st : CopyState) (e : String) :
    (∀ es, rm_children env ((nd, FsTree.dir es) :: rest) path st
        = rm_children env rest path
            (remove_remote_dir_recursive env (.dir es) (remote_join path nd) st))
    ∧ (env.remove_err (remote_join path nf) = some e →
        rm_children env ((nf, FsTree.file) :: rest) path st = (st, true))
    ∧ (env.remove_err (remote_join path nf) = some e → env.listdir_err path = false →
        remove_remote_dir_recursive env (.dir ((nf, FsTree.file) :: rest)) path st = st) := by
  refine ⟨?_, ?_, ?_⟩
  · intro es
    simp [rm_children]
  · intro h
    simp [rm_children, h]
  · intro h hl
    simp [remove_remote_dir_recursive, rm_children, h, hl]

/-- Witness for the amended C7: the failing file child `/r/d/a` makes the
whole removal a no-op though its sibling was removable, while a
subdirectory child is processed without stopping its sibling. -/
theorem remove_tree_abort_granularity_witness :
    remove_remote_dir_recursive rmEnvFail (.dir [("a", .file), ("b", .file)])
        "/r/d" initState = initState
    ∧ (rm_children rmEnvFail [("d", FsTree.dir []), ("b", FsTree.file)]
        "/r/d" initState).1.rm_remote = ["/r/d/b"]
    ∧ (rm_children rmEnvFail [("d", FsTree.dir []), ("b", FsTree.file)]
        "/r/d" initState).1.rmdirs = ["/r/d/d"] := by
  have h := remove_tree_abort_granularity rmEnvFail "d" "a" [("b", FsTree.file)]
    "/r/d" initState "err"
  refine ⟨h.2.2 (by decide) rfl, ?_, ?_⟩
  · rw [h.1 []]
    decide
  · rw [h.1 []]
    decide

/-! ## Algorithm dispatch asymmetry (claim C10) -/

/-- Claim C10: for any algorithm name outside md5/sha1/sha256 (for
example sha512), the remote side silently falls back to `md5sum` — the
command built is the md5 command, and the whole call returns exactly what
a call with algorithm "md5" returns — whereas the local side hands the
same name to `hashlib.new`, computing that algorithm's actual digest; a
cross-side comparison under such a name therefore compares digests of two
different algorithms. -/
theorem unknown_algo_remote_md5_fallback
    (exec : String → String × Nat) (hashhex : String → List Nat → String)
    (log : List String) (remote_path algo : String) (full : Bool) (pmb chunk : Nat)
    (content : List Nat)
    (h1 : algo ≠ "md5") (h2 : algo ≠ "sha256") (h3 : algo ≠ "sha1") :
    sumCmdFor algo = "md5sum"
    ∧ compute_remote_checksum exec log remote_path algo full pmb
        = compute_remote_checksum exec log remote_path "md5" full pmb
    ∧ compute_local_checksum hashhex (some content) algo full pmb chunk
        = some (hashhex algo (content.take
            (read_loop content.length 0
              (if full then none else some (pmb * 1024 * 1024)) chunk))) := by
  have hcmd : sumCmdFor algo = "md5sum" := by
    simp [sumCmdFor, h1, h2, h3]
  have hmd5 : sumCmdFor "md5" = "md5sum" := rfl
  refine ⟨hcmd, ?_, rfl⟩
  simp only [compute_remote_checksum, full_sum_cmd, dd_sum_cmd, hcmd, hmd5]

/-- A hash-family oracle that tags its output with the algorithm name, so
different algorithms visibly give different digests. -/
def hashTag : String → List Nat → String :=
  fun a bs => a ++ "-" ++ toString bs.length

/-- Witness for C10 at algorithm name "sha512": the remote command falls
back to `md5sum` and the remote result equals the md5 call's result,
while the local engine applies the sha512 member of the hash family. -/
theorem unknown_algo_remote_md5_fallback_witness :
    sumCmdFor "sha512" = "md5sum"
    ∧ compute_remote_checksum (fun _ => ("abc f", 0)) [] "/r/f" "sha512" true 5
        = compute_remote_checksum (fun _ => ("abc f", 0)) [] "/r/f" "md5" true 5
    ∧ compute_local_checksum hashTag (some [1, 2, 3]) "sha512" true 5 2
        = some "sha512-3" := by
  have h := unknown_algo_remote_md5_fallback (fun _ => ("abc f", 0)) hashTag
    [] "/r/f" "sha512" true 5 2 [1, 2, 3] (by decide) (by decide) (by decide)
  exact ⟨h.1, h.2.1, h.2.2.trans (by decide)⟩

end MiniMc
